import Mathlib

/-!
Shallow embedding of `src/task/client.py` (class `DialClient`) from the
ai-dial-simple-agent repository, together with theorems settling the
specification claims about it.

The modules `task.models.message`, `task.models.role` and `task.tools.base`
are imported by `client.py` but are not part of the source tree; their data
types (`Message`, `Role`, `BaseTool`) are modelled from the spec (section 3,
DATA MODEL) exactly as `client.py` uses them.

External effects are made explicit:
  * the HTTP transport (`requests.post`) is modelled by a script: a list of
    `HttpResponse` values consumed one per request; every issued request is
    recorded in the result so that claims about "no further request" and
    about the request URL can be stated;
  * `json.loads` (the Python standard library JSON decoder) is a parameter
    `parse : String → Option Args`; `none` models a raised
    `json.JSONDecodeError`;
  * Python exceptions are `Except` errors;
  * in-place mutation of the caller's `messages` list is explicit state
    passing: the final conversation is returned alongside the result.
-/

/-- A JSON value, the result of decoding a JSON text (shape of what
Python's `json.loads` returns). -/
inductive Json where
  | null : Json
  | bool (b : Bool) : Json
  | num (n : Int) : Json
  | str (s : String) : Json
  | arr (elems : List Json) : Json
  | obj (fields : List (String × Json)) : Json

/-- A parsed argument mapping (a decoded JSON object), as passed to a
tool's `execute`. -/
def Args : Type := List (String × Json)

/-- Modelled from the spec: `task.models.role.Role` is not under `src/`.
Spec section 3: `role` is one of SYSTEM, USER, AI (assistant), TOOL. -/
inductive Role where
  | SYSTEM : Role
  | USER : Role
  | AI : Role
  | TOOL : Role
deriving DecidableEq

/-- The `function` part of a tool-call request:
`{name, arguments_as_json_string}` (spec section 3). -/
structure ToolFunction where
  name : String
  arguments : String
deriving DecidableEq

/-- A tool-call request emitted by the model inside an AI message:
`{id, function: {name, arguments_as_json_string}}` (spec section 3). -/
structure ToolCall where
  id : String
  function : ToolFunction
deriving DecidableEq

/-- Modelled from the spec: `task.models.message.Message` is not under
`src/`. Spec section 3: role, optional content, optional ordered tool_calls,
optional name, optional tool_call_id. -/
structure Message where
  role : Role
  content : Option String
  tool_calls : Option (List ToolCall)
  name : Option String
  tool_call_id : Option String
deriving DecidableEq

/-- Modelled from the spec: `task.tools.base.BaseTool` is not under `src/`.
Spec section 3 (Tool): a `name`, a `schema` conveyed verbatim (typed `str`
by the list annotation in `client.py` line 32), and
`execute(arguments: mapping) -> string`. A `BaseTool` instance is truthy in
Python, so `if tool:` in `_call_tool` is a presence test. -/
structure BaseTool where
  name : String
  schema : String
  execute : Args → String

/-- Errors raised by `DialClient.__init__`. -/
inductive InitError where
  | configError : InitError          -- ValueError("API key cannot be null or empty")
  | noneNotIterable : InitError      -- TypeError: 'NoneType' object is not iterable
deriving DecidableEq

/-- Errors raised inside `get_completion` / `_process_tool_calls`. -/
inductive DialError where
  | http (status_code : Nat) (text : String) : DialError
      -- Exception(f"HTTP {response.status_code}: {response.text}")
  | noChoice : DialError
      -- ValueError("No Choice has been present in the response")
  | jsonDecode (arguments : String) : DialError
      -- json.JSONDecodeError from json.loads(function["arguments"])
  | typeError : DialError
      -- TypeError: iterating None (tool_calls absent in the tool_calls branch)
  | noResponse : DialError
      -- transport produced no response (script exhausted)
deriving DecidableEq

/-- The state of a constructed `DialClient`: the four private attributes
set by `__init__` (lines 26-32 of client.py). -/
structure DialClient where
  endpoint : String
  api_key : String
  tools_dict : List (String × BaseTool)
  tools_schemas : List String

/-- Python's `str.strip()` with no argument: remove leading and trailing
whitespace characters. -/
def pyStrip (s : String) : String :=
  String.mk (((s.data.dropWhile Char.isWhitespace).reverse.dropWhile
    Char.isWhitespace).reverse)

/-- Lookup in the Python dict built by `{tool.name: tool for tool in tools}`:
insertion order with last-wins on duplicate keys, so `.get` finds the last
binding for the key. -/
def dict_get (d : List (String × BaseTool)) (k : String) : Option BaseTool :=
  (d.reverse.find? (fun p => p.1 == k)).map (fun p => p.2)

/-- `DialClient.__init__` (client.py lines 13-32).
Line 21: `if not api_key or api_key.strip() == ""` raises ValueError.
Line 26: the endpoint f-string.
Line 30: `{tool.name: tool for tool in tools} or {}` — iterating `tools`
raises TypeError when `tools` is `None`; the trailing `or {}` never
replaces anything (an empty comprehension is already `{}`).
Line 32: `[tool.schema for tool in tools] or []`, likewise. -/
def DialClient.init (endpoint : String) (deployment_name : String)
    (api_key : String) (tools : Option (List BaseTool)) :
    Except InitError DialClient :=
  if api_key = "" ∨ pyStrip api_key = "" then
    .error .configError
  else
    match tools with
    | none => .error .noneNotIterable
    | some ts =>
        .ok { endpoint := endpoint ++ "/openai/deployments/" ++ deployment_name ++ "/chat/completions"
            , api_key := api_key
            , tools_dict := ts.map (fun t => (t.name, t))
            , tools_schemas := ts.map (fun t => t.schema) }

/-- `DialClient._call_tool` (client.py lines 156-162): look the name up in
`__tools_dict`; if present return `tool.execute(arguments)`, otherwise the
literal `f"Unknown function: {function_name}"`. -/
def DialClient.call_tool (c : DialClient) (function_name : String)
    (arguments : Args) : String :=
  match dict_get c.tools_dict function_name with
  | some tool => tool.execute arguments
  | none => "Unknown function: " ++ function_name

/-- `DialClient.process_tool_calls` (client.py lines 117-149, named
`_process_tool_calls` in the source): for each tool call in order, read
`id`, `function.name`, decode `function.arguments` with `json.loads`
(a decode failure raises, aborting the loop and discarding the partial
list), dispatch via `_call_tool`, and collect a TOOL-role `Message` with
`name`, `tool_call_id` and the tool's string result as `content`. -/
def DialClient.process_tool_calls (c : DialClient)
    (parse : String → Option Args) :
    List ToolCall → Except DialError (List Message)
  | [] => .ok []
  | tool_call :: rest =>
      match parse tool_call.function.arguments with
      | none => .error (.jsonDecode tool_call.function.arguments)
      | some arguments =>
          let tool_execution_result :=
            c.call_tool tool_call.function.name arguments
          let msg : Message :=
            { role := .TOOL
            , content := some tool_execution_result
            , tool_calls := none
            , name := some tool_call.function.name
            , tool_call_id := some tool_call.id }
          match c.process_tool_calls parse rest with
          | .error e => .error e
          | .ok tool_messages => .ok (msg :: tool_messages)

/-- `message_data = choice.get("message", {})` followed by
`.get("content")` and `.get("tool_calls")` (client.py lines 81-85): only
these two fields of the choice's message are consulted, either may be
absent (`None`). An absent `message` key behaves as both fields absent. -/
structure ChoiceMessage where
  content : Option String
  tool_calls : Option (List ToolCall)
deriving DecidableEq

/-- One element of the response's `choices` array as consulted by
`get_completion`: its `message` object and `choice.get("finish_reason")`. -/
structure Choice where
  message : ChoiceMessage
  finish_reason : Option String
deriving DecidableEq

/-- An HTTP response as consumed by `get_completion`: the status code, the
decoded `choices` array of the JSON body (`data.get("choices", [])` — an
absent key and an empty array are both `[]`), and the raw body text used
in the non-200 error message. -/
structure HttpResponse where
  status_code : Nat
  choices : List Choice
  text : String

/-- One outbound `requests.post` call (client.py line 64): the URL, the
`api-key` header value, and the JSON body's `messages` and `tools`. -/
structure Request where
  url : String
  api_key : String
  messages : List Message
  tools : List String
deriving DecidableEq

/-- The observable outcome of a `get_completion` call: the caller's
`messages` list after all in-place mutation, every HTTP request issued (in
order), and the returned `Message` or the raised exception. -/
structure RunResult where
  conversation : List Message
  requests : List Request
  result : Except DialError Message

/-- The request issued at client.py line 64 for a given conversation
state: posted to `self.__endpoint` with the `api-key` header and body
`{"messages": ..., "tools": self.__tools_schemas}`. -/
def DialClient.mkRequest (c : DialClient) (messages : List Message) : Request :=
  { url := c.endpoint
  , api_key := c.api_key
  , messages := messages
  , tools := c.tools_schemas }

/-- The AI-role `Message` built at client.py lines 88-92 from the first
choice: `Message(role=Role.AI, content=content, tool_calls=tool_calls)`
(the `name` and `tool_call_id` fields are not passed, hence absent). -/
def ai_response (choice : Choice) : Message :=
  { role := .AI
  , content := choice.message.content
  , tool_calls := choice.message.tool_calls
  , name := none
  , tool_call_id := none }

/-- `DialClient.get_completion` (client.py lines 39-114). The HTTP
transport is a script `responses` consumed one response per request; an
exhausted script means the transport produced nothing (`noResponse`).
Faithful branch structure:
  * non-200 status → raise `Exception(f"HTTP {status}: {text}")`;
  * 200 with empty `choices` → raise ValueError (no choice);
  * first choice, build `ai_response`;
  * `finish_reason == "tool_calls"` → append `ai_response` to `messages`,
    run `_process_tool_calls(tool_calls)` (iterating `None` raises
    TypeError when `tool_calls` is absent; a JSON decode failure
    propagates), extend `messages` with the TOOL messages, recurse;
  * any other `finish_reason` → return `ai_response`. -/
def DialClient.get_completion (c : DialClient)
    (parse : String → Option Args) :
    List HttpResponse → List Message → RunResult
  | [], messages =>
      { conversation := messages
      , requests := [c.mkRequest messages]
      , result := .error .noResponse }
  | response :: rest, messages =>
      let req := c.mkRequest messages
      if response.status_code = 200 then
        match response.choices with
        | [] =>
            { conversation := messages
            , requests := [req]
            , result := .error .noChoice }
        | choice :: _ =>
            if choice.finish_reason = some "tool_calls" then
              let messages1 := messages ++ [ai_response choice]
              match choice.message.tool_calls with
              | none =>
                  { conversation := messages1
                  , requests := [req]
                  , result := .error .typeError }
              | some tool_calls =>
                  match c.process_tool_calls parse tool_calls with
                  | .error e =>
                      { conversation := messages1
                      , requests := [req]
                      , result := .error e }
                  | .ok tool_messages =>
                      let out := c.get_completion parse rest (messages1 ++ tool_messages)
                      { conversation := out.conversation
                      , requests := req :: out.requests
                      , result := out.result }
            else
              { conversation := messages
              , requests := [req]
              , result := .ok (ai_response choice) }
      else
        { conversation := messages
        , requests := [req]
        , result := .error (.http response.status_code response.text) }

/-! Concrete fixtures used to instantiate the theorems below (the mocked
tool and transport data of spec section 8). -/

/-- A sample tool: the `sum` tool of the spec's mocked-transport scenario,
always answering `"3"`. -/
def sumTool : BaseTool :=
  { name := "sum", schema := "sum-schema", execute := fun _ => "3" }

/-- The client state `DialClient.init "http://e" "d" "k" (some [sumTool])`
produces. -/
def sampleClient : DialClient :=
  { endpoint := "http://e/openai/deployments/d/chat/completions"
  , api_key := "k"
  , tools_dict := [("sum", sumTool)]
  , tools_schemas := ["sum-schema"] }

/-- A sample JSON decoder standing in for `json.loads`: accepts exactly the
text `"{}"` (the empty object) and rejects everything else. -/
def parse0 : String → Option Args :=
  fun s => if s = "{}" then some [] else none

/-- Tool call `{id: "c1", function: {name: "sum", arguments: "{}"}}`. -/
def tcSum : ToolCall := { id := "c1", function := { name := "sum", arguments := "{}" } }

/-- Tool call `{id: "c2", function: {name: "mul", arguments: "{}"}}` for a
name absent from the registry. -/
def tcMul : ToolCall := { id := "c2", function := { name := "mul", arguments := "{}" } }

/-- Tool call `{id: "c3", function: {name: "sum", arguments: "not json"}}`
whose arguments string is not valid JSON. -/
def tcBad : ToolCall := { id := "c3", function := { name := "sum", arguments := "not json" } }

/-- A mocked 200 response with `finish_reason = "stop"` and
`content = "hello"`. -/
def respStop : HttpResponse :=
  { status_code := 200
  , choices := [{ message := { content := some "hello", tool_calls := none }
                , finish_reason := some "stop" }]
  , text := "ok" }

/-- A mocked 200 response with `finish_reason = "tool_calls"` carrying the
single tool call `tcSum`. -/
def respToolCalls : HttpResponse :=
  { status_code := 200
  , choices := [{ message := { content := none, tool_calls := some [tcSum] }
                , finish_reason := some "tool_calls" }]
  , text := "ok" }

/-- A mocked 200 response with `finish_reason = "tool_calls"` but no
`tool_calls` field on the message. -/
def respToolCallsAbsent : HttpResponse :=
  { status_code := 200
  , choices := [{ message := { content := some "x", tool_calls := none }
                , finish_reason := some "tool_calls" }]
  , text := "ok" }

/-- A mocked 503 response. -/
def respFail : HttpResponse :=
  { status_code := 503, choices := [], text := "Service Unavailable" }

/-- The initial user message of the sample conversation. -/
def userMsg : Message :=
  { role := .USER, content := some "add 1 and 2", tool_calls := none
  , name := none, tool_call_id := none }

/-- The TOOL message produced for `tcSum` by `sampleClient`. -/
def toolMsgSum : Message :=
  { role := .TOOL, content := some "3", tool_calls := none
  , name := some "sum", tool_call_id := some "c1" }

/-! ## Claim theorems -/

/-- C6: for every tool name absent from the registry and every argument
mapping, `_call_tool` returns exactly `"Unknown function: {name}"` and
never raises (it is a total function); for every name present, it returns
verbatim the string produced by that tool's `execute` on the given
arguments. -/
theorem call_tool_dispatch (c : DialClient) (function_name : String)
    (arguments : Args) :
    (dict_get c.tools_dict function_name = none →
      c.call_tool function_name arguments =
        "Unknown function: " ++ function_name) ∧
    (∀ tool, dict_get c.tools_dict function_name = some tool →
      c.call_tool function_name arguments = tool.execute arguments) := by
  constructor
  · intro h
    unfold DialClient.call_tool
    rw [h]
  · intro tool h
    unfold DialClient.call_tool
    rw [h]

/-- Witness for C6: `sampleClient` knows `sum` but not `mul`; dispatching
`mul` yields the sentinel string and dispatching `sum` yields
`sumTool.execute`'s result. -/
theorem call_tool_dispatch_witness :
    sampleClient.call_tool "mul" [] = "Unknown function: " ++ "mul" ∧
    sampleClient.call_tool "sum" [] = sumTool.execute [] :=
  ⟨(call_tool_dispatch sampleClient "mul" []).1 rfl,
   (call_tool_dispatch sampleClient "sum" []).2 sumTool rfl⟩

/-- C4: construction fails with the configuration error exactly when the
credential is empty or whitespace-only (its whitespace-trimmed form is
empty); with any credential that is non-empty after trimming, the
configuration error is not raised — regardless of the other arguments.
`DialClient.init` issues no request (its result records none). -/
theorem init_rejects_blank_api_key (endpoint deployment_name api_key : String)
    (tools : Option (List BaseTool)) :
    DialClient.init endpoint deployment_name api_key tools =
      .error .configError ↔ pyStrip api_key = "" := by
  unfold DialClient.init
  by_cases h : api_key = "" ∨ pyStrip api_key = ""
  · rw [if_pos h]
    simp only [true_iff]
    rcases h with h | h
    · subst h
      decide
    · exact h
  · rw [if_neg h]
    push_neg at h
    simp only [h.2, iff_false]
    match tools with
    | none => simp
    | some ts => simp

/-- C5 (code bug): constructing with the tool list absent (`tools=None`,
the declared default) does not succeed — the dict comprehension at
client.py line 30 iterates `None` and raises
`TypeError: 'NoneType' object is not iterable` — while constructing with
an empty tool list does succeed with an empty registry and an empty
schema list. The signature `tools: list[BaseTool] | None = None` and the
dead `or {}` / `or []` guards show `None` was meant to be accepted. -/
theorem init_none_tools_crash :
    DialClient.init "http://e" "d" "k" none = .error .noneNotIterable ∧
    ∃ c, DialClient.init "http://e" "d" "k" (some []) = .ok c ∧
      c.tools_dict = [] ∧ c.tools_schemas = [] := by
  have hk : ¬("k" = "" ∨ pyStrip "k" = "") := by decide
  constructor
  · unfold DialClient.init
    rw [if_neg hk]
  · refine ⟨⟨"http://e" ++ "/openai/deployments/" ++ "d" ++ "/chat/completions",
      "k", [], []⟩, ?_, rfl, rfl⟩
    unfold DialClient.init
    rw [if_neg hk]
    rfl

/-- C1: for every list of N tool-call requests whose arguments strings all
JSON-decode, `_process_tool_calls` returns exactly N TOOL-role messages in
input order; the i-th output message has `tool_call_id` equal to the i-th
request's id, `name` equal to its function name, and `content` equal to
the string returned by dispatching that function name with the parsed
arguments. -/
theorem process_tool_calls_spec (c : DialClient) (parse : String → Option Args)
    (tool_calls : List ToolCall)
    (h : ∀ tc ∈ tool_calls, (parse tc.function.arguments).isSome) :
    ∃ tool_messages,
      c.process_tool_calls parse tool_calls = .ok tool_messages ∧
      tool_messages.length = tool_calls.length ∧
      ∀ (i : Nat) (tc : ToolCall) (arguments : Args),
        tool_calls[i]? = some tc →
        parse tc.function.arguments = some arguments →
        tool_messages[i]? = some
          { role := .TOOL
          , content := some (c.call_tool tc.function.name arguments)
          , tool_calls := none
          , name := some tc.function.name
          , tool_call_id := some tc.id } := by
  induction tool_calls with
  | nil =>
    refine ⟨[], rfl, rfl, ?_⟩
    intro i tc arguments h1
    simp at h1
  | cons tc rest ih =>
    obtain ⟨args, hargs⟩ :=
      Option.isSome_iff_exists.mp (h tc (List.mem_cons_self _ _))
    obtain ⟨ms, hok, hlen, hidx⟩ :=
      ih (fun x hx => h x (List.mem_cons_of_mem _ hx))
    refine ⟨{ role := .TOOL
            , content := some (c.call_tool tc.function.name args)
            , tool_calls := none
            , name := some tc.function.name
            , tool_call_id := some tc.id } :: ms, ?_, ?_, ?_⟩
    · unfold DialClient.process_tool_calls
      rw [hargs, hok]
    · simp only [List.length_cons, hlen]
    · intro i tc' arguments h1 h2
      cases i with
      | zero =>
        simp only [List.getElem?_cons_zero, Option.some_inj] at h1
        subst h1
        rw [hargs] at h2
        injection h2 with h2
        subst h2
        simp [List.getElem?_cons_zero]
      | succ n =>
        simp only [List.getElem?_cons_succ] at h1 ⊢
        exact hidx n tc' arguments h1 h2

/-- Witness for C1: `sampleClient` processing the two calls `tcSum`, `tcMul`
(both with decodable arguments) under `parse0`. -/
theorem process_tool_calls_spec_witness :
    (∀ tc ∈ [tcSum, tcMul], (parse0 tc.function.arguments).isSome) ∧
    (∃ tool_messages,
      sampleClient.process_tool_calls parse0 [tcSum, tcMul] = .ok tool_messages ∧
      tool_messages.length = [tcSum, tcMul].length ∧
      ∀ (i : Nat) (tc : ToolCall) (arguments : Args),
        [tcSum, tcMul][i]? = some tc →
        parse0 tc.function.arguments = some arguments →
        tool_messages[i]? = some
          { role := .TOOL
          , content := some (sampleClient.call_tool tc.function.name arguments)
          , tool_calls := none
          , name := some tc.function.name
          , tool_call_id := some tc.id }) :=
  ⟨by decide, process_tool_calls_spec sampleClient parse0 [tcSum, tcMul] (by decide)⟩

/-- C2: for every 200 response whose first choice has a `finish_reason`
other than `"tool_calls"`, `get_completion` returns an AI-role `Message`
whose `content` and `tool_calls` are exactly the first choice's message
fields (each possibly absent), leaves the conversation untouched, and
issues exactly one request (no further request). -/
theorem get_completion_stop_final (c : DialClient)
    (parse : String → Option Args) (response : HttpResponse)
    (rest : List HttpResponse) (messages : List Message)
    (choice : Choice) (more : List Choice)
    (h200 : response.status_code = 200)
    (hch : response.choices = choice :: more)
    (hfr : choice.finish_reason ≠ some "tool_calls") :
    c.get_completion parse (response :: rest) messages =
      { conversation := messages
      , requests := [c.mkRequest messages]
      , result := .ok
          { role := .AI
          , content := choice.message.content
          , tool_calls := choice.message.tool_calls
          , name := none
          , tool_call_id := none } } := by
  unfold DialClient.get_completion
  rw [if_pos h200, hch]
  simp only [if_neg hfr]
  rfl

/-- Witness for C2: the mocked transport of spec section 8 returning
`finish_reason = "stop"` with `content = "hello"`. -/
theorem get_completion_stop_final_witness :
    sampleClient.get_completion parse0 [respStop] [userMsg] =
      { conversation := [userMsg]
      , requests := [sampleClient.mkRequest [userMsg]]
      , result := .ok
          { role := .AI
          , content := some "hello"
          , tool_calls := none
          , name := none
          , tool_call_id := none } } :=
  get_completion_stop_final sampleClient parse0 respStop [] [userMsg]
    { message := { content := some "hello", tool_calls := none }
    , finish_reason := some "stop" } [] rfl rfl (by decide)

/-- C3: for every response with status code other than 200,
`get_completion` fails with the transport error carrying the original
status code and the raw response body, and the caller's conversation is
unchanged on this path (nothing appended). -/
theorem get_completion_non200_error (c : DialClient)
    (parse : String → Option Args) (response : HttpResponse)
    (rest : List HttpResponse) (messages : List Message)
    (h : response.status_code ≠ 200) :
    c.get_completion parse (response :: rest) messages =
      { conversation := messages
      , requests := [c.mkRequest messages]
      , result := .error (.http response.status_code response.text) } := by
  unfold DialClient.get_completion
  rw [if_neg h]

/-- Witness for C3: a mocked 503 response. -/
theorem get_completion_non200_error_witness :
    sampleClient.get_completion parse0 [respFail] [userMsg] =
      { conversation := [userMsg]
      , requests := [sampleClient.mkRequest [userMsg]]
      , result := .error (.http 503 "Service Unavailable") } :=
  get_completion_non200_error sampleClient parse0 respFail [] [userMsg]
    (by decide)

/-- C10: for every 200 response whose first choice has
`finish_reason = "tool_calls"` but whose message carries no `tool_calls`
(absent / `None`), `get_completion` raises (a `TypeError` from iterating
`None` in `_process_tool_calls`) instead of returning a message, and at
the point of failure the AI message has already been appended to the
caller's conversation. -/
theorem get_completion_tool_calls_absent_raises (c : DialClient)
    (parse : String → Option Args) (response : HttpResponse)
    (rest : List HttpResponse) (messages : List Message)
    (choice : Choice) (more : List Choice)
    (h200 : response.status_code = 200)
    (hch : response.choices = choice :: more)
    (hfr : choice.finish_reason = some "tool_calls")
    (htc : choice.message.tool_calls = none) :
    c.get_completion parse (response :: rest) messages =
      { conversation := messages ++ [ai_response choice]
      , requests := [c.mkRequest messages]
      , result := .error .typeError } := by
  unfold DialClient.get_completion
  rw [if_pos h200, hch]
  simp only [if_pos hfr, htc]

/-- Witness for C10: the mocked response `respToolCallsAbsent`. -/
theorem get_completion_tool_calls_absent_raises_witness :
    sampleClient.get_completion parse0 [respToolCallsAbsent] [userMsg] =
      { conversation := [userMsg] ++ [ai_response
          { message := { content := some "x", tool_calls := none }
          , finish_reason := some "tool_calls" }]
      , requests := [sampleClient.mkRequest [userMsg]]
      , result := .error .typeError } :=
  get_completion_tool_calls_absent_raises sampleClient parse0
    respToolCallsAbsent [] [userMsg]
    { message := { content := some "x", tool_calls := none }
    , finish_reason := some "tool_calls" } [] rfl rfl rfl rfl

/-! Branch equations for `get_completion`, shared by the invariant proofs
below. -/

/-- Exhausted transport script: the request is issued but no response
arrives. -/
theorem gc_nil (c : DialClient) (parse : String → Option Args)
    (messages : List Message) :
    c.get_completion parse [] messages =
      { conversation := messages
      , requests := [c.mkRequest messages]
      , result := .error .noResponse } := rfl

/-- Non-200 branch (client.py lines 113-114). -/
theorem gc_non200 (c : DialClient) (parse : String → Option Args)
    (response : HttpResponse) (rest : List HttpResponse)
    (messages : List Message)
    (h : response.status_code ≠ 200) :
    c.get_completion parse (response :: rest) messages =
      { conversation := messages
      , requests := [c.mkRequest messages]
      , result := .error (.http response.status_code response.text) } := by
  unfold DialClient.get_completion
  rw [if_neg h]

/-- Empty `choices` branch (client.py line 112). -/
theorem gc_noChoice (c : DialClient) (parse : String → Option Args)
    (response : HttpResponse) (rest : List HttpResponse)
    (messages : List Message)
    (h200 : response.status_code = 200)
    (hch : response.choices = []) :
    c.get_completion parse (response :: rest) messages =
      { conversation := messages
      , requests := [c.mkRequest messages]
      , result := .error .noChoice } := by
  unfold DialClient.get_completion
  rw [if_pos h200, hch]

/-- Final-answer branch (client.py line 110). -/
theorem gc_stop (c : DialClient) (parse : String → Option Args)
    (response : HttpResponse) (rest : List HttpResponse)
    (messages : List Message) (choice : Choice) (more : List Choice)
    (h200 : response.status_code = 200)
    (hch : response.choices = choice :: more)
    (hfr : choice.finish_reason ≠ some "tool_calls") :
    c.get_completion parse (response :: rest) messages =
      { conversation := messages
      , requests := [c.mkRequest messages]
      , result := .ok (ai_response choice) } := by
  unfold DialClient.get_completion
  rw [if_pos h200, hch]
  simp only [if_neg hfr]

/-- `finish_reason = "tool_calls"` with the `tool_calls` field absent:
iterating `None` raises after the AI message was appended. -/
theorem gc_tc_none (c : DialClient) (parse : String → Option Args)
    (response : HttpResponse) (rest : List HttpResponse)
    (messages : List Message) (choice : Choice) (more : List Choice)
    (h200 : response.status_code = 200)
    (hch : response.choices = choice :: more)
    (hfr : choice.finish_reason = some "tool_calls")
    (htc : choice.message.tool_calls = none) :
    c.get_completion parse (response :: rest) messages =
      { conversation := messages ++ [ai_response choice]
      , requests := [c.mkRequest messages]
      , result := .error .typeError } := by
  unfold DialClient.get_completion
  rw [if_pos h200, hch]
  simp only [if_pos hfr, htc]

/-- `finish_reason = "tool_calls"` with `_process_tool_calls` raising:
the error propagates after the AI message was appended. -/
theorem gc_tc_error (c : DialClient) (parse : String → Option Args)
    (response : HttpResponse) (rest : List HttpResponse)
    (messages : List Message) (choice : Choice) (more : List Choice)
    (tool_calls : List ToolCall) (e : DialError)
    (h200 : response.status_code = 200)
    (hch : response.choices = choice :: more)
    (hfr : choice.finish_reason = some "tool_calls")
    (htc : choice.message.tool_calls = some tool_calls)
    (hpt : c.process_tool_calls parse tool_calls = .error e) :
    c.get_completion parse (response :: rest) messages =
      { conversation := messages ++ [ai_response choice]
      , requests := [c.mkRequest messages]
      , result := .error e } := by
  unfold DialClient.get_completion
  rw [if_pos h200, hch]
  simp only [if_pos hfr, htc, hpt]

/-- `finish_reason = "tool_calls"` with the batch succeeding: append the
AI message and the TOOL messages, recurse on the remaining script. -/
theorem gc_tc_ok (c : DialClient) (parse : String → Option Args)
    (response : HttpResponse) (rest : List HttpResponse)
    (messages : List Message) (choice : Choice) (more : List Choice)
    (tool_calls : List ToolCall) (tool_messages : List Message)
    (h200 : response.status_code = 200)
    (hch : response.choices = choice :: more)
    (hfr : choice.finish_reason = some "tool_calls")
    (htc : choice.message.tool_calls = some tool_calls)
    (hpt : c.process_tool_calls parse tool_calls = .ok tool_messages) :
    c.get_completion parse (response :: rest) messages =
      { conversation :=
          (c.get_completion parse rest
            ((messages ++ [ai_response choice]) ++ tool_messages)).conversation
      , requests := c.mkRequest messages ::
          (c.get_completion parse rest
            ((messages ++ [ai_response choice]) ++ tool_messages)).requests
      , result :=
          (c.get_completion parse rest
            ((messages ++ [ai_response choice]) ++ tool_messages)).result } := by
  simp only [DialClient.get_completion, hch, if_pos h200, if_pos hfr, htc, hpt]

/-- The conversation after any `get_completion` run extends the starting
conversation: the original messages remain a prefix, in order. -/
theorem gc_conversation_extends (c : DialClient)
    (parse : String → Option Args) :
    ∀ (responses : List HttpResponse) (messages : List Message),
      ∃ tail, (c.get_completion parse responses messages).conversation =
        messages ++ tail := by
  intro responses
  induction responses with
  | nil =>
    intro messages
    exact ⟨[], by rw [gc_nil]; simp⟩
  | cons response rest ih =>
    intro messages
    by_cases h200 : response.status_code = 200
    · cases hch : response.choices with
      | nil =>
        exact ⟨[], by rw [gc_noChoice c parse response rest messages h200 hch]; simp⟩
      | cons choice more =>
        by_cases hfr : choice.finish_reason = some "tool_calls"
        · cases htc : choice.message.tool_calls with
          | none =>
            exact ⟨[ai_response choice],
              by rw [gc_tc_none c parse response rest messages choice more h200 hch hfr htc]⟩
          | some tool_calls =>
            cases hpt : c.process_tool_calls parse tool_calls with
            | error e =>
              exact ⟨[ai_response choice],
                by rw [gc_tc_error c parse response rest messages choice more tool_calls e h200 hch hfr htc hpt]⟩
            | ok tool_messages =>
              obtain ⟨t, ht⟩ := ih ((messages ++ [ai_response choice]) ++ tool_messages)
              refine ⟨[ai_response choice] ++ tool_messages ++ t, ?_⟩
              rw [gc_tc_ok c parse response rest messages choice more tool_calls tool_messages h200 hch hfr htc hpt]
              simp only [List.append_assoc] at ht ⊢
              exact ht
        · exact ⟨[], by rw [gc_stop c parse response rest messages choice more h200 hch hfr]; simp⟩
    · exact ⟨[], by rw [gc_non200 c parse response rest messages h200]; simp⟩

/-- Every request issued during a `get_completion` run is posted to the
client's composed endpoint URL. -/
theorem gc_requests_url (c : DialClient) (parse : String → Option Args) :
    ∀ (responses : List HttpResponse) (messages : List Message)
      (req : Request),
      req ∈ (c.get_completion parse responses messages).requests →
      req.url = c.endpoint := by
  intro responses
  induction responses with
  | nil =>
    intro messages req hreq
    rw [gc_nil] at hreq
    simp only [List.mem_singleton] at hreq
    subst hreq
    rfl
  | cons response rest ih =>
    intro messages req hreq
    by_cases h200 : response.status_code = 200
    · cases hch : response.choices with
      | nil =>
        rw [gc_noChoice c parse response rest messages h200 hch] at hreq
        simp only [List.mem_singleton] at hreq
        subst hreq
        rfl
      | cons choice more =>
        by_cases hfr : choice.finish_reason = some "tool_calls"
        · cases htc : choice.message.tool_calls with
          | none =>
            rw [gc_tc_none c parse response rest messages choice more h200 hch hfr htc] at hreq
            simp only [List.mem_singleton] at hreq
            subst hreq
            rfl
          | some tool_calls =>
            cases hpt : c.process_tool_calls parse tool_calls with
            | error e =>
              rw [gc_tc_error c parse response rest messages choice more tool_calls e h200 hch hfr htc hpt] at hreq
              simp only [List.mem_singleton] at hreq
              subst hreq
              rfl
            | ok tool_messages =>
              rw [gc_tc_ok c parse response rest messages choice more tool_calls tool_messages h200 hch hfr htc hpt] at hreq
              simp only [List.mem_cons] at hreq
              rcases hreq with hreq | hreq
              · subst hreq
                rfl
              · exact ih ((messages ++ [ai_response choice]) ++ tool_messages) req hreq
        · rw [gc_stop c parse response rest messages choice more h200 hch hfr] at hreq
          simp only [List.mem_singleton] at hreq
          subst hreq
          rfl
    · rw [gc_non200 c parse response rest messages h200] at hreq
      simp only [List.mem_singleton] at hreq
      subst hreq
      rfl

/-- C7: a batch of tool-call requests containing at least one whose
arguments string is not valid JSON fails as a whole with a parsing error:
`_process_tool_calls` raises (returns no list of TOOL messages), the error
is not caught per-call, and it propagates as a fatal error for the
enclosing `get_completion` invocation. -/
theorem process_tool_calls_malformed_batch (c : DialClient)
    (parse : String → Option Args) (tool_calls : List ToolCall)
    (h : ∃ tc ∈ tool_calls, parse tc.function.arguments = none) :
    (∃ s, c.process_tool_calls parse tool_calls = .error (.jsonDecode s)) ∧
    (∀ tool_messages,
      c.process_tool_calls parse tool_calls ≠ .ok tool_messages) ∧
    (∀ (response : HttpResponse) (rest : List HttpResponse)
      (messages : List Message) (choice : Choice) (more : List Choice),
      response.status_code = 200 →
      response.choices = choice :: more →
      choice.finish_reason = some "tool_calls" →
      choice.message.tool_calls = some tool_calls →
      ∃ s, (c.get_completion parse (response :: rest) messages).result =
        .error (.jsonDecode s)) := by
  have main : ∀ (l : List ToolCall),
      (∃ tc ∈ l, parse tc.function.arguments = none) →
      ∃ s, c.process_tool_calls parse l = .error (.jsonDecode s) := by
    intro l
    induction l with
    | nil =>
      intro hl
      obtain ⟨tc, htc, _⟩ := hl
      simp at htc
    | cons tc rest ih =>
      intro hl
      cases hp : parse tc.function.arguments with
      | none =>
        refine ⟨tc.function.arguments, ?_⟩
        unfold DialClient.process_tool_calls
        rw [hp]
      | some args =>
        obtain ⟨tc', htc', hp'⟩ := hl
        rcases List.mem_cons.mp htc' with hEq | hmem
        · subst hEq
          rw [hp] at hp'
          simp at hp'
        · obtain ⟨s, hs⟩ := ih ⟨tc', hmem, hp'⟩
          refine ⟨s, ?_⟩
          unfold DialClient.process_tool_calls
          rw [hp, hs]
  obtain ⟨s, hs⟩ := main tool_calls h
  refine ⟨⟨s, hs⟩, ?_, ?_⟩
  · intro tool_messages heq
    rw [hs] at heq
    simp at heq
  · intro response rest messages choice more h200 hch hfr htc
    refine ⟨s, ?_⟩
    rw [gc_tc_error c parse response rest messages choice more tool_calls
      (.jsonDecode s) h200 hch hfr htc hs]

/-- Witness for C7: the batch `[tcSum, tcBad]` where `tcBad`'s arguments
string is not valid JSON. -/
theorem process_tool_calls_malformed_batch_witness :
    (∃ tc ∈ [tcSum, tcBad], parse0 tc.function.arguments = none) ∧
    ((∃ s, sampleClient.process_tool_calls parse0 [tcSum, tcBad] =
        .error (.jsonDecode s)) ∧
    (∀ tool_messages,
      sampleClient.process_tool_calls parse0 [tcSum, tcBad] ≠
        .ok tool_messages) ∧
    (∀ (response : HttpResponse) (rest : List HttpResponse)
      (messages : List Message) (choice : Choice) (more : List Choice),
      response.status_code = 200 →
      response.choices = choice :: more →
      choice.finish_reason = some "tool_calls" →
      choice.message.tool_calls = some [tcSum, tcBad] →
      ∃ s, (sampleClient.get_completion parse0 (response :: rest) messages).result =
        .error (.jsonDecode s))) :=
  ⟨⟨tcBad, by decide, rfl⟩,
   process_tool_calls_malformed_batch sampleClient parse0 [tcSum, tcBad]
     ⟨tcBad, by decide, rfl⟩⟩

/-- C8: across every `get_completion` execution the conversation is
mutated only by appending — the starting messages remain present,
unchanged and in order as a prefix of the final conversation — and when
the response's `finish_reason` is `"tool_calls"` the appended items are
the AI message followed by its TOOL-result messages in tool-call order. -/
theorem get_completion_append_only (c : DialClient)
    (parse : String → Option Args) (responses : List HttpResponse)
    (messages : List Message) :
    (∃ tail, (c.get_completion parse responses messages).conversation =
      messages ++ tail) ∧
    (∀ (response : HttpResponse) (rest : List HttpResponse) (choice : Choice)
      (more : List Choice) (tool_calls : List ToolCall)
      (tool_messages : List Message),
      responses = response :: rest →
      response.status_code = 200 →
      response.choices = choice :: more →
      choice.finish_reason = some "tool_calls" →
      choice.message.tool_calls = some tool_calls →
      c.process_tool_calls parse tool_calls = .ok tool_messages →
      ∃ tail, (c.get_completion parse responses messages).conversation =
        (messages ++ [ai_response choice] ++ tool_messages) ++ tail) := by
  constructor
  · exact gc_conversation_extends c parse responses messages
  · intro response rest choice more tool_calls tool_messages hresp h200 hch hfr htc hpt
    subst hresp
    obtain ⟨t, ht⟩ := gc_conversation_extends c parse rest
      ((messages ++ [ai_response choice]) ++ tool_messages)
    refine ⟨t, ?_⟩
    rw [gc_tc_ok c parse response rest messages choice more tool_calls
      tool_messages h200 hch hfr htc hpt]
    exact ht

/-- Witness for C8: the two-round mocked run — one `tool_calls` response
carrying `tcSum`, then a final `stop` response. -/
theorem get_completion_append_only_witness :
    (∃ tail, (sampleClient.get_completion parse0 [respToolCalls, respStop]
        [userMsg]).conversation = [userMsg] ++ tail) ∧
    (∃ tail, (sampleClient.get_completion parse0 [respToolCalls, respStop]
        [userMsg]).conversation =
      ([userMsg] ++ [ai_response
          { message := { content := none, tool_calls := some [tcSum] }
          , finish_reason := some "tool_calls" }] ++ [toolMsgSum]) ++ tail) :=
  ⟨(get_completion_append_only sampleClient parse0 [respToolCalls, respStop]
      [userMsg]).1,
   (get_completion_append_only sampleClient parse0 [respToolCalls, respStop]
      [userMsg]).2 respToolCalls [respStop]
     { message := { content := none, tool_calls := some [tcSum] }
     , finish_reason := some "tool_calls" } [] [tcSum] [toolMsgSum]
     rfl rfl rfl rfl rfl rfl⟩

/-- C9: for arbitrary endpoint and deployment strings, a successfully
constructed client's request URL is byte-for-byte
`{endpoint}/openai/deployments/{deployment}/chat/completions`, and every
request issued by any `get_completion` run is posted to that same URL. -/
theorem endpoint_url_contract (endpoint deployment_name api_key : String)
    (ts : List BaseTool) (c : DialClient)
    (h : DialClient.init endpoint deployment_name api_key (some ts) = .ok c) :
    c.endpoint =
      endpoint ++ "/openai/deployments/" ++ deployment_name ++ "/chat/completions" ∧
    ∀ (parse : String → Option Args) (responses : List HttpResponse)
      (messages : List Message) (req : Request),
      req ∈ (c.get_completion parse responses messages).requests →
      req.url =
        endpoint ++ "/openai/deployments/" ++ deployment_name ++ "/chat/completions" := by
  have hc : c.endpoint =
      endpoint ++ "/openai/deployments/" ++ deployment_name ++ "/chat/completions" := by
    unfold DialClient.init at h
    by_cases hk : api_key = "" ∨ pyStrip api_key = ""
    · rw [if_pos hk] at h
      simp at h
    · rw [if_neg hk] at h
      simp only [Except.ok.injEq] at h
      subst h
      rfl
  refine ⟨hc, ?_⟩
  intro parse responses messages req hreq
  rw [← hc]
  exact gc_requests_url c parse responses messages req hreq

/-- Witness for C9: `sampleClient`, the result of
`DialClient.init "http://e" "d" "k" (some [sumTool])`, and the single
request of a one-round run. -/
theorem endpoint_url_contract_witness :
    sampleClient.endpoint =
      "http://e" ++ "/openai/deployments/" ++ "d" ++ "/chat/completions" ∧
    (sampleClient.mkRequest [userMsg]).url =
      "http://e" ++ "/openai/deployments/" ++ "d" ++ "/chat/completions" :=
  ⟨(endpoint_url_contract "http://e" "d" "k" [sumTool] sampleClient rfl).1,
   (endpoint_url_contract "http://e" "d" "k" [sumTool] sampleClient rfl).2
     parse0 [respStop] [userMsg] (sampleClient.mkRequest [userMsg]) (by decide)⟩
